import Mathlib

/-
Shallow embedding of the tool-descriptor core of Huggingface-course.ipynb.

The source defines a class `Tool` with fields name, description, func,
arguments, outputs, a method `to_string`, a method `__call__`, and a
decorator `tool(func)` that derives a `Tool` from a function by reflection
over its signature and docstring.

Python metadata is modelled explicitly: a parameter's declared type is
either absent (inspect's empty sentinel), an object carrying a short
`__name__`, or an object without one whose textual form is a string.
Note that inspect's empty sentinel is itself a class, so it carries a
`__name__` attribute equal to the string written below.
-/

/-- A Python annotation value as seen by the decorator: the inspect empty
sentinel, an object with a short name attribute, or one without (rendered
by its textual form). -/
inductive PyAnn where
  | empty : PyAnn
  | named (n : String) : PyAnn
  | unnamed (s : String) : PyAnn
deriving DecidableEq, Repr

/-- The string computed by the decorator for a parameter's declared type:
the short name attribute when the value has one, else its textual form.
The empty sentinel is a class, so it has a name attribute whose value is
the string of its class identifier. -/
def PyAnn.pyName : PyAnn → String
  | .empty => "_empty"
  | .named n => n
  | .unnamed s => s

/-- One declared parameter of a Python function: its identifier and its
declared type (possibly the empty sentinel). -/
structure PyParam where
  name : String
  ann : PyAnn
deriving DecidableEq, Repr

/-- The reflectable surface of a Python function, as consumed by the
decorator: its dunder name, its optional docstring, its declared
parameters in declaration order, its return declaration, and its runtime
behaviour as a Lean function. -/
structure PyFunc (α β : Type) where
  name : String
  doc : Option String
  params : List PyParam
  ret : PyAnn
  fn : α → β

/-- The Tool class: a callable paired with metadata.  Fields mirror the
source attributes name, description, func, arguments, outputs. -/
structure Tool (α β : Type) where
  name : String
  description : String
  func : α → β
  arguments : List (String × String)
  outputs : String

/-- Tool dunder init: stores each supplied field verbatim, with no
validation. -/
def Tool.init (α β : Type) (name : String) (description : String)
    (func : α → β) (arguments : List (String × String)) (outputs : String) :
    Tool α β :=
  { name := name, description := description, func := func,
    arguments := arguments, outputs := outputs }

/-- Tool.to_string: joins the name-type pairs with a comma-space and
splices the fields into the fixed single-line template. -/
def Tool.to_string (t : Tool α β) : String :=
  let args_str := String.intercalate ", "
    (t.arguments.map (fun a => a.1 ++ ": " ++ a.2))
  "Tool Name: " ++ t.name ++
    ", Description: " ++ t.description ++
    ", Arguments: " ++ args_str ++
    ", Outputs: " ++ t.outputs

/-- Tool dunder call: returns the result of the wrapped callable on the
given arguments, with nothing added around it. -/
def Tool.call (t : Tool α β) (args : α) : β :=
  t.func args

/-- The decorator tool(func): derives the argument pairs from the declared
parameters in order, the outputs label from the return declaration, the
description from the docstring (the Python or-expression treats both a
missing and an empty docstring as falsy), and wraps the original
function. -/
def tool (f : PyFunc α β) : Tool α β :=
  let arguments := f.params.map (fun p => (p.name, p.ann.pyName))
  let outputs :=
    match f.ret with
    | PyAnn.empty => "No return annotation"
    | r => r.pyName
  let description :=
    match f.doc with
    | none => "No description provided."
    | some s => if s = "" then "No description provided." else s
  Tool.init α β f.name description f.fn arguments outputs

/-- A public operation on a descriptor: render it to text or invoke it. -/
inductive ToolOp (α : Type) where
  | render : ToolOp α
  | invoke (args : α) : ToolOp α

/-- The post-state of one public operation.  Both method bodies contain no
assignment to self, so each returns the receiver unchanged. -/
def runOp (t : Tool α β) : ToolOp α → Tool α β
  | ToolOp.render => (fun _ => t) t.to_string
  | ToolOp.invoke a => (fun _ => t) (t.call a)

/-- The post-state after an arbitrary sequence of public operations. -/
def runOps (t : Tool α β) (ops : List (ToolOp α)) : Tool α β :=
  ops.foldl runOp t

/-- The runtime behaviour of the multiply example: the product of the two
arguments. -/
def multiplyFn : Int × Int → Int := fun p => p.1 * p.2

/-- The multiply example function: two int parameters, int return, and a
one-sentence docstring. -/
def multiplyPy : PyFunc (Int × Int) Int :=
  { name := "multiply"
  , doc := some "Multiply two integers."
  , params := [⟨"a", PyAnn.named "int"⟩, ⟨"b", PyAnn.named "int"⟩]
  , ret := PyAnn.named "int"
  , fn := multiplyFn }

/-- A zero-parameter, undocumented function with no return declaration. -/
def fZeroPy : PyFunc Unit Unit :=
  { name := "f", doc := none, params := [], ret := PyAnn.empty
  , fn := fun _ => () }

/-- A one-parameter function whose parameter carries no type declaration
and whose docstring and return declaration are also absent. -/
def untypedPy : PyFunc Int Int :=
  { name := "g", doc := none, params := [⟨"x", PyAnn.empty⟩]
  , ret := PyAnn.empty, fn := fun x => x }

/-- Mapping the derived pair extraction over parameters built from
name-type pairs with named types gives back the original pairs. -/
theorem mapNamedPairs (ps : List (String × String)) :
    (ps.map (fun p => PyParam.mk p.1 (PyAnn.named p.2))).map
      (fun p : PyParam => (p.name, p.ann.pyName)) = ps := by
  induction ps with
  | nil => rfl
  | cons p rest ih => exact congrArg (List.cons p) ih

/-- C1: deriving a descriptor via the decorator from a function with a
declared name, named parameter types, a named return type and a non-empty
docstring, then rendering it, reproduces every supplied value verbatim in
the fixed template, in declaration order. -/
theorem c1_round_trip (α β : Type) (nm d r : String)
    (ps : List (String × String)) (fn : α → β) (hd : d ≠ "") :
    (tool { name := nm, doc := some d,
            params := ps.map (fun p => ⟨p.1, PyAnn.named p.2⟩),
            ret := PyAnn.named r, fn := fn }).to_string =
      "Tool Name: " ++ nm ++ ", Description: " ++ d ++ ", Arguments: " ++
        String.intercalate ", " (ps.map (fun p => p.1 ++ ": " ++ p.2)) ++
        ", Outputs: " ++ r := by
  have harg := mapNamedPairs ps
  simp only [tool, Tool.init, Tool.to_string, List.map_map, if_neg hd]
    at harg ⊢
  rw [← List.map_map, harg]
  rfl

/-- C1 witness: the multiply example renders to exactly the string the
claim states. -/
theorem c1_round_trip_witness :
    "Multiply two integers." ≠ "" ∧
    (tool { name := "multiply", doc := some "Multiply two integers.",
            params := [("a", "int"), ("b", "int")].map
              (fun p => ⟨p.1, PyAnn.named p.2⟩),
            ret := PyAnn.named "int", fn := multiplyFn }).to_string =
      "Tool Name: multiply, Description: Multiply two integers., Arguments: a: int, b: int, Outputs: int" := by
  refine ⟨by decide, ?_⟩
  rw [c1_round_trip (Int × Int) Int "multiply" "Multiply two integers."
    "int" [("a", "int"), ("b", "int")] multiplyFn (by decide)]
  rfl

/-- C2: rendering any descriptor yields the fixed single-line template
with the argument pairs joined by comma-space; and the zero-parameter,
undocumented, untyped-return function renders to exactly the claimed
string with an empty arguments segment after the label. -/
theorem c2_render_format :
    (∀ (α β : Type) (t : Tool α β),
      t.to_string =
        "Tool Name: " ++ t.name ++ ", Description: " ++ t.description ++
          ", Arguments: " ++
          String.intercalate ", "
            (t.arguments.map (fun a => a.1 ++ ": " ++ a.2)) ++
          ", Outputs: " ++ t.outputs) ∧
    (tool fZeroPy).to_string =
      "Tool Name: f, Description: No description provided., Arguments: , Outputs: No return annotation" := by
  constructor
  · intro α β t
    rfl
  · rfl

/-- C3: invoking a descriptor built by the decorator on any argument value
returns exactly what the wrapped function returns there; in particular the
multiply tool invoked on the pair three-four returns twelve. -/
theorem c3_invoke_equiv :
    (∀ (α β : Type) (f : PyFunc α β) (a : α), (tool f).call a = f.fn a) ∧
    (tool multiplyPy).call (3, 4) = 12 := by
  constructor
  · intro α β f a
    rfl
  · rfl

/-- C4: the derived argument list has exactly one entry per declared
parameter, in declaration order, each carrying that parameter's
identifier as its name. -/
theorem c4_params_order (α β : Type) (f : PyFunc α β) :
    (tool f).arguments.length = f.params.length ∧
    (tool f).arguments.map Prod.fst = f.params.map PyParam.name := by
  constructor
  · simp [tool, Tool.init]
  · simp [tool, Tool.init, List.map_map, Function.comp]

/-- C5: the outputs label is the fixed sentinel when the function declares
no return type, and otherwise the declared type's short name when it has
one, else its full textual form. -/
theorem c5_output_label (α β : Type) (f : PyFunc α β) :
    (tool f).outputs =
      match f.ret with
      | PyAnn.empty => "No return annotation"
      | PyAnn.named n => n
      | PyAnn.unnamed s => s := by
  cases h : f.ret <;> simp [tool, Tool.init, PyAnn.pyName, h]

/-- C6: the description is the docstring verbatim when it is present and
non-empty, and the fixed sentinel when the docstring is absent or
empty. -/
theorem c6_description (α β : Type) (f : PyFunc α β) :
    (∀ s, f.doc = some s → s ≠ "" → (tool f).description = s) ∧
    ((f.doc = none ∨ f.doc = some "") →
      (tool f).description = "No description provided.") := by
  constructor
  · intro s hs hne
    simp [tool, Tool.init, hs, hne]
  · rintro (h | h) <;> simp [tool, Tool.init, h]

/-- C6 witness: the multiply example keeps its docstring verbatim and the
undocumented example gets the sentinel. -/
theorem c6_description_witness :
    (tool multiplyPy).description = "Multiply two integers." ∧
    (tool fZeroPy).description = "No description provided." :=
  ⟨(c6_description (Int × Int) Int multiplyPy).1 "Multiply two integers."
      rfl (by decide),
   (c6_description Unit Unit fZeroPy).2 (Or.inl rfl)⟩

/-- C7: the decorator is total, producing an argument pair for every
declared parameter, and a parameter with no declared type yields the
sentinel short name of the empty class rather than a failure. -/
theorem c7_total_sentinel (α β : Type) (f : PyFunc α β) :
    (tool f).arguments = f.params.map (fun p => (p.name, p.ann.pyName)) ∧
    (∀ p, p ∈ f.params → p.ann = PyAnn.empty →
      (p.name, "_empty") ∈ (tool f).arguments) := by
  constructor
  · rfl
  · intro p hp hann
    have h : (p.name, "_empty") = (p.name, p.ann.pyName) := by
      simp [hann, PyAnn.pyName]
    rw [h]
    exact List.mem_map_of_mem (fun q => (q.name, q.ann.pyName)) hp

/-- C7 witness: the example with one untyped parameter yields the
sentinel-labelled pair among its arguments. -/
theorem c7_total_sentinel_witness :
    PyParam.mk "x" PyAnn.empty ∈ untypedPy.params ∧
    ("x", "_empty") ∈ (tool untypedPy).arguments :=
  ⟨List.mem_singleton.2 rfl,
   (c7_total_sentinel Int Int untypedPy).2 ⟨"x", PyAnn.empty⟩
     (List.mem_singleton.2 rfl) rfl⟩

/-- C8: invocation returns the wrapped callable's result unchanged, so
with a fallible callable the invocation result is an error exactly when
and exactly how the callable's own result is. -/
theorem c8_error_prop (α β ε : Type) (t : Tool α (Except ε β)) (a : α) :
    t.call a = t.func a := rfl

/-- C9: descriptors are immutable: after any sequence of render and
invoke operations the descriptor, and so each of its fields, equals its
construction-time value. -/
theorem c9_immutable (α β : Type) (t : Tool α β) (ops : List (ToolOp α)) :
    runOps t ops = t ∧
    (runOps t ops).name = t.name ∧
    (runOps t ops).description = t.description ∧
    (runOps t ops).func = t.func ∧
    (runOps t ops).arguments = t.arguments ∧
    (runOps t ops).outputs = t.outputs := by
  have h : runOps t ops = t := by
    induction ops generalizing t with
    | nil => rfl
    | cons op rest ih =>
      have hstep : runOp t op = t := by
        cases op <;> rfl
      calc runOps t (op :: rest) = runOps (runOp t op) rest := rfl
        _ = runOps t rest := by rw [hstep]
        _ = t := ih t
  exact ⟨h, by rw [h], by rw [h], by rw [h], by rw [h], by rw [h]⟩

/-- C10: direct construction performs no validation and stores every
supplied field verbatim, for any field values, including an empty name. -/
theorem c10_ctor_verbatim (α β : Type) (nm d : String) (fn : α → β)
    (args : List (String × String)) (out : String) :
    (Tool.init α β nm d fn args out).name = nm ∧
    (Tool.init α β nm d fn args out).description = d ∧
    (Tool.init α β nm d fn args out).func = fn ∧
    (Tool.init α β nm d fn args out).arguments = args ∧
    (Tool.init α β nm d fn args out).outputs = out ∧
    (Tool.init α β "" d fn args out).name = "" :=
  ⟨rfl, rfl, rfl, rfl, rfl, rfl⟩
